import Mathlib

/-!
Shallow embedding of the calibration engine of `precision-desktop`
(`src/calibration.py` and the calibration part of `src/health_check.py`).

Conventions of the embedding:
* Python floats are modelled as exact rationals (`ℚ`).
* Python's builtin `round` (banker's rounding, half to even) is `pyRound`;
  `round(x, n)` is `roundTo6` / `roundTo4` for the two precisions the code uses.
* Timestamps are rationals counting seconds; `timedelta(days=7)` is `sevenDays`.
* The persisted JSON file is a `Store := Option CalibState`; `none` means the
  state file does not exist.  Dict keys that some records lack are `Option`
  fields (`none` = key absent or value `null`).
* Python exceptions become `Except` errors.
-/

/-- One calibration sample point (a dict in the source). -/
structure Point where
  physical_x : ℤ
  physical_y : ℤ
  logical_x : ℤ
  logical_y : ℤ
  label : Option String := none
deriving DecidableEq

/-- The persisted calibration record.  Fields that may be absent from the
dict (or hold `null`) are `Option`s. -/
structure CalibState where
  calibrated : Bool
  scale_x : Option ℚ
  scale_y : Option ℚ
  offset_x : ℤ
  offset_y : ℤ
  points : List Point
  calibrated_at : Option ℚ
  verified : Bool
  consistent : Option Bool
  spread_x : Option ℚ
  spread_y : Option ℚ
  verified_at : Option ℚ
  verification_notes : Option String
deriving DecidableEq

/-- Python's builtin `round`: nearest integer, ties to the even integer. -/
def pyRound (q : ℚ) : ℤ :=
  let f := ⌊q⌋
  let r := q - (f : ℚ)
  if r < 1/2 then f
  else if 1/2 < r then f + 1
  else if f % 2 = 0 then f else f + 1

/-- Python's `round(q, 6)`. -/
def roundTo6 (q : ℚ) : ℚ := (pyRound (q * 1000000) : ℚ) / 1000000

/-- Python's `round(q, 4)`. -/
def roundTo4 (q : ℚ) : ℚ := (pyRound (q * 10000) : ℚ) / 10000

/-- Insert into a sorted list (ascending). -/
def insertQ (a : ℚ) : List ℚ → List ℚ
  | [] => [a]
  | b :: bs => if a ≤ b then a :: b :: bs else b :: insertQ a bs

/-- Insertion sort, the sorted order used by `statistics.median`. -/
def sortQ : List ℚ → List ℚ
  | [] => []
  | a :: as => insertQ a (sortQ as)

/-- `statistics.median`: middle of the sorted data, or the mean of the two
middle values when the length is even.  (The Python function raises on an
empty list; every call site guards non-emptiness.) -/
def median (l : List ℚ) : ℚ :=
  let s := sortQ l
  let n := s.length
  if n % 2 = 1 then s.getD (n / 2) 0
  else (s.getD (n / 2 - 1) 0 + s.getD (n / 2) 0) / 2

/-- Python's `max` over a (non-empty) list. -/
def maxQ : List ℚ → ℚ
  | [] => 0
  | a :: as => as.foldl max a

/-- Python's `min` over a (non-empty) list. -/
def minQ : List ℚ → ℚ
  | [] => 0
  | a :: as => as.foldl min a

/-- The persisted state: `none` models an absent state file. -/
abbrev Store := Option CalibState

/-- The default record built by `load_state` when no file exists. -/
def defaultState : CalibState :=
  { calibrated := false
    scale_x := none
    scale_y := none
    offset_x := 0
    offset_y := 0
    points := []
    calibrated_at := none
    verified := false
    consistent := none
    spread_x := none
    spread_y := none
    verified_at := none
    verification_notes := none }

/-- `load_state`. -/
def load_state (st : Store) : CalibState := st.getD defaultState

/-- `save_state` (overwrites the single persisted record). -/
def save_state (s : CalibState) (_ : Store) : Store := some s

/-- Errors raised by `compute_calibration` (both are `ValueError`s in
the source; the spec names them `InsufficientSamples` / `DegenerateInput`). -/
inductive CalibErr where
  | insufficientSamples
  | degenerateInput
deriving DecidableEq

/-- The loop `for p in points: if p["logical_x"] != 0: scales_x.append(...)`. -/
def collectScalesX (points : List Point) : List ℚ :=
  points.filterMap fun p =>
    if p.logical_x ≠ 0 then some ((p.physical_x : ℚ) / (p.logical_x : ℚ)) else none

/-- The loop building `scales_y`. -/
def collectScalesY (points : List Point) : List ℚ :=
  points.filterMap fun p =>
    if p.logical_y ≠ 0 then some ((p.physical_y : ℚ) / (p.logical_y : ℚ)) else none

/-- The straight-line tail of `compute_calibration` once both guards have
passed: medians, spreads, consistency flag, offsets, and the new record. -/
def mkCalibState (points : List Point) (now : ℚ) : CalibState :=
  let scales_x := collectScalesX points
  let scales_y := collectScalesY points
  let scale_x := median scales_x
  let scale_y := median scales_y
  let spread_x := if scale_x ≠ 0 then (maxQ scales_x - minQ scales_x) / scale_x else 0
  let spread_y := if scale_y ≠ 0 then (maxQ scales_y - minQ scales_y) / scale_y else 0
  let consistent := if spread_x < 2/100 ∧ spread_y < 2/100 then true else false
  let offsets_x := points.filterMap fun p =>
    if p.logical_x ≠ 0 then some ((p.physical_x : ℚ) - (p.logical_x : ℚ) * scale_x) else none
  let offsets_y := points.filterMap fun p =>
    if p.logical_y ≠ 0 then some ((p.physical_y : ℚ) - (p.logical_y : ℚ) * scale_y) else none
  let offset_x := if offsets_x ≠ [] then pyRound (median offsets_x) else 0
  let offset_y := if offsets_y ≠ [] then pyRound (median offsets_y) else 0
  { calibrated := true
    scale_x := some (roundTo6 scale_x)
    scale_y := some (roundTo6 scale_y)
    offset_x := offset_x
    offset_y := offset_y
    points := points
    calibrated_at := some now
    verified := false
    consistent := some consistent
    spread_x := some (roundTo4 spread_x)
    spread_y := some (roundTo4 spread_y)
    verified_at := none
    verification_notes := none }

/-- `compute_calibration` without its persistence side effect: the guards and
the computed record.  `now` is the value of `datetime.now(timezone.utc)`. -/
def compute_calibration (points : List Point) (now : ℚ) : Except CalibErr CalibState :=
  if points.length < 2 then .error .insufficientSamples
  else if collectScalesX points = [] ∨ collectScalesY points = [] then
    .error .degenerateInput
  else .ok (mkCalibState points now)

/-- `compute_calibration` together with its `save_state` side effect: returns
the result and the store after the call (the raises happen before the save). -/
def estimate (points : List Point) (now : ℚ) (st : Store) :
    Except CalibErr CalibState × Store :=
  match compute_calibration points now with
  | .error e => (.error e, st)
  | .ok s => (.ok s, save_state s st)

/-- The pure update performed by `mark_verified` on the loaded record. -/
def mark_verified_update (s : CalibState) (success : Bool) (notes : String)
    (now : ℚ) : CalibState :=
  { s with verified := success, verification_notes := some notes,
           verified_at := some now }

/-- `mark_verified`: load, set the three verification fields, save. -/
def mark_verified (success : Bool) (notes : String) (now : ℚ) (st : Store) :
    CalibState × Store :=
  let s := mark_verified_update (load_state st) success notes now
  (s, save_state s st)

/-- Failures of the conversion functions: the explicit `RuntimeError` when
not calibrated, a `TypeError` when arithmetic meets a `null` scale, a
`ZeroDivisionError` when dividing by a zero scale. -/
inductive ConvErr where
  | notCalibrated
  | typeError
  | zeroDivision
deriving DecidableEq

/-- One axis of `physical_to_logical`: `round((phys - offset) / scale)`. -/
def p2lAxis (v offset : ℤ) (scale : Option ℚ) : Except ConvErr ℤ :=
  match scale with
  | none => .error .typeError
  | some s =>
    if s = 0 then .error .zeroDivision
    else .ok (pyRound (((v : ℚ) - (offset : ℚ)) / s))

/-- One axis of `logical_to_physical`: `round(log * scale + offset)`. -/
def l2pAxis (v offset : ℤ) (scale : Option ℚ) : Except ConvErr ℤ :=
  match scale with
  | none => .error .typeError
  | some s => .ok (pyRound ((v : ℚ) * s + (offset : ℚ)))

/-- `physical_to_logical`. -/
def physical_to_logical (st : Store) (phys_x phys_y : ℤ) :
    Except ConvErr (ℤ × ℤ) :=
  let s := load_state st
  if s.calibrated = false then .error .notCalibrated
  else do
    let lx ← p2lAxis phys_x s.offset_x s.scale_x
    let ly ← p2lAxis phys_y s.offset_y s.scale_y
    pure (lx, ly)

/-- `logical_to_physical`. -/
def logical_to_physical (st : Store) (log_x log_y : ℤ) :
    Except ConvErr (ℤ × ℤ) :=
  let s := load_state st
  if s.calibrated = false then .error .notCalibrated
  else do
    let px ← l2pAxis log_x s.offset_x s.scale_x
    let py ← l2pAxis log_y s.offset_y s.scale_y
    pure (px, py)

/-- The statuses reported by `check_calibration`. -/
inductive Status where
  | missing
  | stale
  | unverified
  | inconsistent
  | ok
deriving DecidableEq

/-- The report built by `check_calibration` (message strings omitted). -/
structure Report where
  status : Status
  action_needed : Bool
  scale_x : Option ℚ := none
  scale_y : Option ℚ := none
deriving DecidableEq

/-- `timedelta(days=7)` in seconds. -/
def sevenDays : ℚ := 604800

/-- `check_calibration` on a loaded record.  When `calibrated` is set but
`calibrated_at` is `null`, the code sets `stale = True` and then formats the
variable `age`, which was never assigned on that path: the call raises a
`NameError`, modelled as `.error ()`. -/
def check_calibration (s : CalibState) (now : ℚ) : Except Unit Report :=
  if s.calibrated = false then
    .ok { status := .missing, action_needed := true }
  else
    match s.calibrated_at with
    | some t =>
      if now - t > sevenDays then
        .ok { status := .stale, action_needed := true,
              scale_x := s.scale_x, scale_y := s.scale_y }
      else if s.verified = false then
        .ok { status := .unverified, action_needed := true,
              scale_x := s.scale_x, scale_y := s.scale_y }
      else if s.consistent.getD true = false then
        .ok { status := .inconsistent, action_needed := true,
              scale_x := s.scale_x, scale_y := s.scale_y }
      else
        .ok { status := .ok, action_needed := false,
              scale_x := s.scale_x, scale_y := s.scale_y }
    | none => .error ()

/-- An 8-day-old, verified, consistent record (for the C1 witness). -/
def staleSample : CalibState :=
  { defaultState with calibrated := true, calibrated_at := some 0, verified := true, consistent := some true }

/-- A calibrated record with unit scales and zero offsets (for witnesses). -/
def unitSample : CalibState :=
  { defaultState with calibrated := true, scale_x := some 1, scale_y := some 1, calibrated_at := some 0 }

/-- The point pair named in the spec's §8 example. -/
def examplePoints : List Point :=
  [⟨100, 100, 100, 100, none⟩, ⟨200, 200, 100, 100, none⟩]

/-- Estimate from `points`, then send `(lx, ly)` logical → physical →
logical with the resulting model (the round trip of the claim). -/
def roundTripAfterEstimate (points : List Point) (now : ℚ) (lx ly : ℤ) :
    Option (ℤ × ℤ) :=
  match compute_calibration points now with
  | .error _ => none
  | .ok s =>
    match logical_to_physical (some s) lx ly with
    | .error _ => none
    | .ok (px, py) =>
      match physical_to_logical (some s) px py with
      | .error _ => none
      | .ok r => some r

/-- The spec's description of the per-axis ratio collection, stated
independently of the code's loop: the ratio `physical_x / logical_x` over
exactly those points whose `logical_x` is nonzero. -/
def specRatiosX (points : List Point) : List ℚ :=
  (points.filter fun p => decide (p.logical_x ≠ 0)).map
    fun p => (p.physical_x : ℚ) / (p.logical_x : ℚ)

/-- The spec's ratio collection for the y axis. -/
def specRatiosY (points : List Point) : List ℚ :=
  (points.filter fun p => decide (p.logical_y ≠ 0)).map
    fun p => (p.physical_y : ℚ) / (p.logical_y : ℚ)

/-- Two copies of the point `physical (1,1) / logical (3,3)` (for C4). -/
def thirdPoints : List Point := [⟨1, 1, 3, 3, none⟩, ⟨1, 1, 3, 3, none⟩]

/-- Records reachable through the engine's own operations: the default
record when nothing is persisted, the output of a successful estimation,
and the verification update applied to a reachable record. -/
inductive ReachableState : CalibState → Prop where
  | initial : ReachableState defaultState
  | estimated (points : List Point) (now : ℚ) (s : CalibState) :
      compute_calibration points now = .ok s → ReachableState s
  | marked (s : CalibState) (success : Bool) (notes : String) (now : ℚ) :
      ReachableState s → ReachableState (mark_verified_update s success notes now)

/-! ## Claim C1: status classification priority -/

/-- C1.  For every loaded calibration record (with its `calibrated_at`
timestamp present whenever `calibrated` is set, and its `consistent` field
present), `check_calibration` returns exactly one status following the
priority order missing → stale → unverified → inconsistent → ok, and
`action_needed` holds exactly when the status is not `ok`.  In particular a
record whose calibration is older than 7 days is `stale` regardless of the
`verified` and `consistent` flags. -/
theorem checkCalibration_status_priority (s : CalibState) (now t : ℚ) (c : Bool)
    (hat : s.calibrated = true → s.calibrated_at = some t)
    (hc : s.consistent = some c) :
    ∃ r, check_calibration s now = .ok r ∧
      r.status = (if s.calibrated = false then Status.missing
        else if now - t > sevenDays then Status.stale
        else if s.verified = false then Status.unverified
        else if c = false then Status.inconsistent
        else Status.ok) ∧
      (r.action_needed = true ↔ r.status ≠ Status.ok) := by
  by_cases hcal : s.calibrated = false
  · refine ⟨⟨.missing, true, none, none⟩, ?_, ?_, by simp⟩
    · simp [check_calibration, hcal]
    · simp [hcal]
  · have hat' : s.calibrated_at = some t := hat (by simpa using hcal)
    by_cases h1 : now - t > sevenDays
    · refine ⟨⟨.stale, true, s.scale_x, s.scale_y⟩, ?_, ?_, by simp⟩
      · simp [check_calibration, hcal, hat', h1]
      · simp [hcal, h1]
    · by_cases h2 : s.verified = false
      · refine ⟨⟨.unverified, true, s.scale_x, s.scale_y⟩, ?_, ?_, by simp⟩
        · simp [check_calibration, hcal, hat', h1, h2]
        · simp [hcal, h1, h2]
      · by_cases h3 : c = false
        · refine ⟨⟨.inconsistent, true, s.scale_x, s.scale_y⟩, ?_, ?_, by simp⟩
          · simp [check_calibration, hcal, hat', h1, h2, hc, h3]
          · simp [hcal, h1, h2, h3]
        · refine ⟨⟨.ok, false, s.scale_x, s.scale_y⟩, ?_, ?_, by simp⟩
          · simp [check_calibration, hcal, hat', h1, h2, hc, h3]
          · simp [hcal, h1, h2, h3]

/-- Witness for C1: a consistent, verified record calibrated 8 days before
`now` is classified `stale` with `action_needed`. -/
theorem checkCalibration_status_priority_witness :
    ∃ r, check_calibration staleSample (8 * 86400) = .ok r ∧
      r.status = (if staleSample.calibrated = false then Status.missing
        else if 8 * 86400 - 0 > sevenDays then Status.stale
        else if staleSample.verified = false then Status.unverified
        else if true = false then Status.inconsistent
        else Status.ok) ∧
      (r.action_needed = true ↔ r.status ≠ Status.ok) :=
  checkCalibration_status_priority staleSample (8 * 86400) 0 true (fun _ => rfl) rfl

/-! ## Inversion of a successful `compute_calibration` (shared helper) -/

/-- `scales_x` is empty exactly when every point has `logical_x == 0`. -/
theorem collectScalesX_eq_nil_iff (points : List Point) :
    collectScalesX points = [] ↔ ∀ p ∈ points, p.logical_x = 0 := by
  simp [collectScalesX, List.filterMap_eq_nil_iff]

/-- `scales_y` is empty exactly when every point has `logical_y == 0`. -/
theorem collectScalesY_eq_nil_iff (points : List Point) :
    collectScalesY points = [] ↔ ∀ p ∈ points, p.logical_y = 0 := by
  simp [collectScalesY, List.filterMap_eq_nil_iff]

/-- A successful `compute_calibration` means both guards passed and the result
is exactly the record built by the straight-line tail. -/
theorem compute_calibration_ok (points : List Point) (now : ℚ) (s : CalibState)
    (h : compute_calibration points now = .ok s) :
    2 ≤ points.length ∧ collectScalesX points ≠ [] ∧ collectScalesY points ≠ [] ∧
    s = mkCalibState points now := by
  by_cases h1 : points.length < 2
  · simp [compute_calibration, h1] at h
  · by_cases h2 : collectScalesX points = [] ∨ collectScalesY points = []
    · simp [compute_calibration, h1, h2] at h
    · rw [not_or] at h2
      refine ⟨by omega, h2.1, h2.2, ?_⟩
      simp [compute_calibration, h1, not_or.mpr h2] at h
      exact h.symm

/-! ## Claim C3: the two-point example from the spec -/

/-- C3 counterexample.  On the spec's example points the second point has
ratio `200/100 = 2.0`, not `1.0`: the computed scale is the median `1.5`
(not `1.0`) and the spread `2/3` makes `consistent == false` (not `true`). -/
theorem examplePoints_scale_not_one :
    (compute_calibration examplePoints 0).toOption.map
        (fun s => (s.scale_x, s.consistent)) = some (some (3/2), some false) ∧
    some ((3 : ℚ)/2) ≠ some ((1 : ℚ)) ∧ some false ≠ some true := by
  refine ⟨?_, by norm_num, by simp⟩
  have hx : collectScalesX [⟨100, 100, 100, 100, none⟩, ⟨200, 200, 100, 100, none⟩] = [1, 2] := by
    norm_num [collectScalesX, List.filterMap_cons]
  have hy : collectScalesY [⟨100, 100, 100, 100, none⟩, ⟨200, 200, 100, 100, none⟩] = [1, 2] := by
    norm_num [collectScalesY, List.filterMap_cons]
  have hm : median [(1:ℚ), 2] = 3/2 := by norm_num [median, sortQ, insertQ]
  norm_num [compute_calibration, mkCalibState, hx, hy, hm, maxQ, minQ, max_def, min_def,
    List.filterMap_cons, median, sortQ, insertQ, pyRound, roundTo6, roundTo4,
    Except.toOption, examplePoints, List.cons_ne_nil]

/-- C3 as amended.  On the spec's example points estimation succeeds and
produces `scale_x = scale_y = 1.5` (the median of the ratios `1.0` and `2.0`)
with `consistent == false` (the relative spread is `2/3`, far above 2%). -/
theorem examplePoints_scale_three_halves :
    (compute_calibration examplePoints 0).toOption.map
        (fun s => (s.scale_x, s.scale_y, s.consistent, s.spread_x)) =
      some (some (3/2), some (3/2), some false, some (6667/10000)) := by
  have hx : collectScalesX [⟨100, 100, 100, 100, none⟩, ⟨200, 200, 100, 100, none⟩] = [1, 2] := by
    norm_num [collectScalesX, List.filterMap_cons]
  have hy : collectScalesY [⟨100, 100, 100, 100, none⟩, ⟨200, 200, 100, 100, none⟩] = [1, 2] := by
    norm_num [collectScalesY, List.filterMap_cons]
  have hm : median [(1:ℚ), 2] = 3/2 := by norm_num [median, sortQ, insertQ]
  norm_num [compute_calibration, mkCalibState, hx, hy, hm, maxQ, minQ, max_def, min_def,
    List.filterMap_cons, median, sortQ, insertQ, pyRound, roundTo6, roundTo4,
    Except.toOption, examplePoints, List.cons_ne_nil]

/-! ## Claim C5: error conditions of estimation -/

/-- C5.  `compute_calibration` fails with `InsufficientSamples` exactly when
fewer than 2 points are supplied; with at least 2 points it fails with
`DegenerateInput` exactly when some axis collects no usable ratio (every
point has logical coordinate 0 on that axis); otherwise it succeeds. -/
theorem compute_calibration_error_characterization (points : List Point) (now : ℚ) :
    (compute_calibration points now = .error .insufficientSamples ↔ points.length < 2) ∧
    (2 ≤ points.length →
      (compute_calibration points now = .error .degenerateInput ↔
        (∀ p ∈ points, p.logical_x = 0) ∨ (∀ p ∈ points, p.logical_y = 0))) ∧
    (2 ≤ points.length → ¬ (∀ p ∈ points, p.logical_x = 0) →
      ¬ (∀ p ∈ points, p.logical_y = 0) →
      ∃ s, compute_calibration points now = .ok s) := by
  refine ⟨?_, ?_, ?_⟩
  · by_cases h1 : points.length < 2
    · simp [compute_calibration, h1]
    · simp only [compute_calibration, if_neg h1, iff_false_intro h1, iff_false]
      by_cases h2 : collectScalesX points = [] ∨ collectScalesY points = []
      · simp [h2]
      · simp [h2]
  · intro hlen
    have h1 : ¬ points.length < 2 := by omega
    by_cases h2 : collectScalesX points = [] ∨ collectScalesY points = []
    · simp [compute_calibration, h1, h2]
      rw [← collectScalesX_eq_nil_iff points, ← collectScalesY_eq_nil_iff points]
      exact h2
    · have h2' : ¬ ((∀ p ∈ points, p.logical_x = 0) ∨ (∀ p ∈ points, p.logical_y = 0)) := by
        rw [← collectScalesX_eq_nil_iff points, ← collectScalesY_eq_nil_iff points]
        exact h2
      simp [compute_calibration, h1, h2]
      push_neg at h2'
      exact h2'
  · intro hlen hx hy
    have h1 : ¬ points.length < 2 := by omega
    have h2 : ¬ (collectScalesX points = [] ∨ collectScalesY points = []) := by
      rw [not_or, collectScalesX_eq_nil_iff, collectScalesY_eq_nil_iff]
      exact ⟨hx, hy⟩
    exact ⟨mkCalibState points now, by simp [compute_calibration, h1, h2]⟩

/-- Witness for C5: one single point is rejected as `InsufficientSamples`. -/
theorem compute_calibration_error_characterization_witness :
    compute_calibration [⟨100, 100, 100, 100, none⟩] 0 = .error .insufficientSamples :=
  (compute_calibration_error_characterization [⟨100, 100, 100, 100, none⟩] 0).1.mpr
    (by simp)

/-! ## Claim C6: estimation is atomic with respect to the store -/

/-- C6.  When estimation fails the persisted record is untouched; when it
succeeds the persisted record is exactly the returned, fully populated model
(`calibrated` set, scales, timestamp, consistency verdict and spreads all
present). -/
theorem estimate_atomic (points : List Point) (now : ℚ) (st : Store) :
    (∀ e, (estimate points now st).1 = .error e → (estimate points now st).2 = st) ∧
    (∀ s, (estimate points now st).1 = .ok s →
      (estimate points now st).2 = some s ∧ s.calibrated = true ∧
      s.scale_x.isSome = true ∧ s.scale_y.isSome = true ∧
      s.calibrated_at.isSome = true ∧ s.consistent.isSome = true ∧
      s.spread_x.isSome = true ∧ s.spread_y.isSome = true) := by
  cases h : compute_calibration points now with
  | error e =>
    refine ⟨fun e' _ => by simp [estimate, h], fun s hs => ?_⟩
    simp [estimate, h] at hs
  | ok s =>
    refine ⟨fun e' he => by simp [estimate, h] at he, fun s' hs' => ?_⟩
    simp only [estimate, h] at hs' ⊢
    cases hs'
    obtain ⟨-, -, -, hmk⟩ := compute_calibration_ok points now s h
    subst hmk
    simp [save_state, mkCalibState]

/-- Witness for C6: a failing call (1 point) on a non-empty store leaves the
store unchanged. -/
theorem estimate_atomic_witness :
    (estimate [⟨100, 100, 100, 100, none⟩] 0 (some staleSample)).2 = some staleSample :=
  (estimate_atomic [⟨100, 100, 100, 100, none⟩] 0 (some staleSample)).1
    .insufficientSamples (by simp [estimate, compute_calibration])

/-! ## Claim C8: the frame of `mark_verified` -/

/-- C8.  `mark_verified` sets `verified` to `success`, stores the notes and
the verification time, persists the result, and leaves every other field of
the loaded record unchanged; in particular `success = false` stores
`verified = false`. -/
theorem mark_verified_frame (st : Store) (success : Bool) (notes : String) (now : ℚ) :
    (mark_verified success notes now st).1.verified = success ∧
    (mark_verified success notes now st).1.verification_notes = some notes ∧
    (mark_verified success notes now st).1.verified_at = some now ∧
    (mark_verified success notes now st).1.calibrated = (load_state st).calibrated ∧
    (mark_verified success notes now st).1.scale_x = (load_state st).scale_x ∧
    (mark_verified success notes now st).1.scale_y = (load_state st).scale_y ∧
    (mark_verified success notes now st).1.offset_x = (load_state st).offset_x ∧
    (mark_verified success notes now st).1.offset_y = (load_state st).offset_y ∧
    (mark_verified success notes now st).1.points = (load_state st).points ∧
    (mark_verified success notes now st).1.consistent = (load_state st).consistent ∧
    (mark_verified success notes now st).1.spread_x = (load_state st).spread_x ∧
    (mark_verified success notes now st).1.spread_y = (load_state st).spread_y ∧
    (mark_verified success notes now st).1.calibrated_at = (load_state st).calibrated_at ∧
    (mark_verified success notes now st).2 = some (mark_verified success notes now st).1 :=
  ⟨rfl, rfl, rfl, rfl, rfl, rfl, rfl, rfl, rfl, rfl, rfl, rfl, rfl, rfl⟩

/-! ## Claim C7: conversion failure and formulas -/

/-- C7.  Each directional conversion fails with `NotCalibrated` exactly when
the loaded record has `calibrated == false`; on a calibrated record whose
per-axis scales are present and nonzero (as the data model requires of a
calibrated record) it returns `round((physical − offset) / scale)` per axis
in the physical→logical direction and `round(logical * scale + offset)` per
axis in the logical→physical direction. -/
theorem convert_notCalibrated_iff (st : Store) (x y : ℤ) (sx sy : ℚ) :
    (physical_to_logical st x y = .error .notCalibrated ↔
      (load_state st).calibrated = false) ∧
    (logical_to_physical st x y = .error .notCalibrated ↔
      (load_state st).calibrated = false) ∧
    ((load_state st).calibrated = true → (load_state st).scale_x = some sx →
      (load_state st).scale_y = some sy → sx ≠ 0 → sy ≠ 0 →
      physical_to_logical st x y =
        .ok (pyRound (((x : ℚ) - ((load_state st).offset_x : ℚ)) / sx),
             pyRound (((y : ℚ) - ((load_state st).offset_y : ℚ)) / sy)) ∧
      logical_to_physical st x y =
        .ok (pyRound ((x : ℚ) * sx + ((load_state st).offset_x : ℚ)),
             pyRound ((y : ℚ) * sy + ((load_state st).offset_y : ℚ)))) := by
  refine ⟨?_, ?_, ?_⟩
  · by_cases hc : (load_state st).calibrated = false
    · simp [physical_to_logical, hc]
    · simp only [physical_to_logical, if_neg hc, iff_false_intro hc, iff_false]
      cases hx : (load_state st).scale_x with
      | none => simp [p2lAxis, Except.instMonad, Except.bind, Except.map, Except.pure]
      | some a =>
        by_cases ha : a = 0
        · simp [p2lAxis, hx, ha, Except.instMonad, Except.bind, Except.map, Except.pure]
        · cases hy : (load_state st).scale_y with
          | none => simp [p2lAxis, hx, ha, Except.instMonad, Except.bind, Except.map, Except.pure]
          | some b =>
            by_cases hb : b = 0 <;>
              simp [p2lAxis, hx, ha, hy, hb, Except.instMonad, Except.bind, Except.map, Except.pure]
  · by_cases hc : (load_state st).calibrated = false
    · simp [logical_to_physical, hc]
    · simp only [logical_to_physical, if_neg hc, iff_false_intro hc, iff_false]
      cases hx : (load_state st).scale_x with
      | none => simp [l2pAxis, Except.instMonad, Except.bind, Except.map, Except.pure]
      | some a =>
        cases hy : (load_state st).scale_y with
        | none => simp [l2pAxis, hx, Except.instMonad, Except.bind, Except.map, Except.pure]
        | some b => simp [l2pAxis, hx, hy, Except.instMonad, Except.bind, Except.map, Except.pure]
  · intro hc hsx hsy hx0 hy0
    have hc' : ¬ (load_state st).calibrated = false := by simp [hc]
    constructor
    · simp [physical_to_logical, hc', hsx, hsy, p2lAxis, hx0, hy0, Except.instMonad, Except.bind, Except.map, Except.pure]
    · simp [logical_to_physical, hc', hsx, hsy, l2pAxis, Except.instMonad, Except.bind, Except.map, Except.pure]

/-- Witness for C7: before any estimation (empty store) both conversions
fail with `NotCalibrated`; on a calibrated record with unit scales and zero
offsets, converting `(3, 7)` gives `(3, 7)` in both directions. -/
theorem convert_notCalibrated_iff_witness :
    physical_to_logical none 3 7 = .error .notCalibrated ∧
    logical_to_physical none 3 7 = .error .notCalibrated ∧
    (physical_to_logical (some unitSample) 3 7 = .ok (pyRound (((3 : ℚ) - ((0 : ℤ) : ℚ)) / 1),
        pyRound (((7 : ℚ) - ((0 : ℤ) : ℚ)) / 1)) ∧
      logical_to_physical (some unitSample) 3 7 = .ok (pyRound ((3 : ℚ) * 1 + ((0 : ℤ) : ℚ)),
        pyRound ((7 : ℚ) * 1 + ((0 : ℤ) : ℚ)))) :=
  ⟨(convert_notCalibrated_iff none 3 7 1 1).1.mpr rfl,
   (convert_notCalibrated_iff none 3 7 1 1).2.1.mpr rfl,
   (convert_notCalibrated_iff (some unitSample) 3 7 1 1).2.2 rfl rfl rfl
     one_ne_zero one_ne_zero⟩

/-! ## Claim C2: round-trip conversion drift -/

/-- Banker's rounding is within half a unit of its argument. -/
theorem pyRound_abs_le (q : ℚ) : |(pyRound q : ℚ) - q| ≤ 1/2 := by
  have h0 : (⌊q⌋ : ℚ) ≤ q := Int.floor_le q
  have h1 : q < ⌊q⌋ + 1 := Int.lt_floor_add_one q
  simp only [pyRound]
  split_ifs with hr1 hr2 he
  · rw [abs_le]; constructor <;> linarith
  · rw [abs_le]; push_cast; constructor <;> linarith
  · have : q - (⌊q⌋ : ℚ) = 1/2 := le_antisymm (not_lt.mp hr2) (not_lt.mp hr1)
    rw [abs_le]; constructor <;> linarith
  · have : q - (⌊q⌋ : ℚ) = 1/2 := le_antisymm (not_lt.mp hr2) (not_lt.mp hr1)
    rw [abs_le]; push_cast; constructor <;> linarith

/-- One axis of the round trip: with scale at least `1/2`, converting a
logical value to physical (rounding) and back (rounding again) moves it by
at most one unit. -/
theorem roundtrip_axis (l o : ℤ) (s : ℚ) (hs : 1/2 ≤ s) :
    |pyRound (((pyRound ((l : ℚ) * s + (o : ℚ)) : ℚ) - (o : ℚ)) / s) - l| ≤ 1 := by
  have hs0 : 0 < s := lt_of_lt_of_le (by norm_num) hs
  set p : ℤ := pyRound ((l : ℚ) * s + (o : ℚ)) with hp
  have he : |(p : ℚ) - ((l : ℚ) * s + (o : ℚ))| ≤ 1/2 := pyRound_abs_le _
  set q2 : ℚ := ((p : ℚ) - (o : ℚ)) / s with hq2
  have hl' : |(pyRound q2 : ℚ) - q2| ≤ 1/2 := pyRound_abs_le _
  have hq2l : |q2 - (l : ℚ)| ≤ 1 := by
    have : q2 - (l : ℚ) = ((p : ℚ) - ((l : ℚ) * s + (o : ℚ))) / s := by
      field_simp [hq2]
      ring
    rw [this, abs_div, abs_of_pos hs0, div_le_one hs0]
    calc |(p : ℚ) - ((l : ℚ) * s + (o : ℚ))| ≤ 1/2 := he
    _ ≤ s := hs
  have hsum : |(pyRound q2 : ℚ) - (l : ℚ)| ≤ 3/2 := by
    calc |(pyRound q2 : ℚ) - (l : ℚ)|
        ≤ |(pyRound q2 : ℚ) - q2| + |q2 - (l : ℚ)| := abs_sub_le _ _ _
    _ ≤ 1/2 + 1 := add_le_add hl' hq2l
    _ = 3/2 := by norm_num
  have hfl : |pyRound q2 - l| ≤ ⌊(3/2 : ℚ)⌋ := by
    rw [Int.le_floor, Int.cast_abs]
    push_cast
    exact hsum
  calc |pyRound q2 - l| ≤ ⌊(3/2 : ℚ)⌋ := hfl
  _ = 1 := by norm_num

/-- C2 as amended.  For every calibrated record whose per-axis scales are at
least `1/2` (all typical DPI factors 1.0–2.0 qualify; smaller scales can
drift further, see the counterexample), converting logical to physical and
back moves each coordinate by at most one unit. -/
theorem roundTrip_within_one (s : CalibState) (sx sy : ℚ) (lx ly : ℤ)
    (hc : s.calibrated = true) (hsx : s.scale_x = some sx)
    (hsy : s.scale_y = some sy) (hx : 1/2 ≤ sx) (hy : 1/2 ≤ sy) :
    ∃ px py lx' ly',
      logical_to_physical (some s) lx ly = .ok (px, py) ∧
      physical_to_logical (some s) px py = .ok (lx', ly') ∧
      |lx' - lx| ≤ 1 ∧ |ly' - ly| ≤ 1 := by
  have hx0 : sx ≠ 0 := by intro h; rw [h] at hx; norm_num at hx
  have hy0 : sy ≠ 0 := by intro h; rw [h] at hy; norm_num at hy
  refine ⟨pyRound ((lx : ℚ) * sx + (s.offset_x : ℚ)),
          pyRound ((ly : ℚ) * sy + (s.offset_y : ℚ)),
          pyRound (((pyRound ((lx : ℚ) * sx + (s.offset_x : ℚ)) : ℚ) - (s.offset_x : ℚ)) / sx),
          pyRound (((pyRound ((ly : ℚ) * sy + (s.offset_y : ℚ)) : ℚ) - (s.offset_y : ℚ)) / sy),
          ?_, ?_, ?_, ?_⟩
  · simp [logical_to_physical, load_state, hc, l2pAxis, hsx, hsy,
      Except.instMonad, Except.bind, Except.map, Except.pure]
  · simp [physical_to_logical, load_state, hc, p2lAxis, hsx, hsy, hx0, hy0,
      Except.instMonad, Except.bind, Except.map, Except.pure]
  · exact roundtrip_axis lx s.offset_x sx hx
  · exact roundtrip_axis ly s.offset_y sy hy

/-- Witness for C2 (amended): with unit scales and zero offsets, `(3, 7)`
round trips within one unit. -/
theorem roundTrip_within_one_witness :
    ∃ px py lx' ly',
      logical_to_physical (some unitSample) 3 7 = .ok (px, py) ∧
      physical_to_logical (some unitSample) px py = .ok (lx', ly') ∧
      |lx' - 3| ≤ 1 ∧ |ly' - 7| ≤ 1 :=
  roundTrip_within_one unitSample 1 1 3 7 rfl rfl rfl (by norm_num) (by norm_num)

/-- C2 counterexample.  The model estimated from two copies of the point
`physical (1,1) / logical (10,10)` is calibrated with scale `0.1`, yet the
logical pair `(4, 4)` round trips to `(0, 0)`: a drift of 4 units per axis,
violating the claimed ±1 bound. -/
theorem roundTrip_drift_exceeds_one :
    (compute_calibration [⟨1, 1, 10, 10, none⟩, ⟨1, 1, 10, 10, none⟩] 0).toOption.map
        (fun s => s.scale_x) = some (some (1/10)) ∧
    roundTripAfterEstimate [⟨1, 1, 10, 10, none⟩, ⟨1, 1, 10, 10, none⟩] 0 4 4 =
      some (0, 0) ∧
    ¬ |(0 : ℤ) - 4| ≤ 1 := by
  have hx : collectScalesX [⟨1, 1, 10, 10, none⟩, ⟨1, 1, 10, 10, none⟩] = [1/10, 1/10] := by
    norm_num [collectScalesX, List.filterMap_cons]
  have hy : collectScalesY [⟨1, 1, 10, 10, none⟩, ⟨1, 1, 10, 10, none⟩] = [1/10, 1/10] := by
    norm_num [collectScalesY, List.filterMap_cons]
  have hm : median [(1:ℚ)/10, 1/10] = 1/10 := by norm_num [median, sortQ, insertQ]
  refine ⟨?_, ?_, by norm_num⟩
  · norm_num [compute_calibration, mkCalibState, hx, hy, hm, maxQ, minQ, max_def, min_def,
      List.filterMap_cons, median, sortQ, insertQ, pyRound, roundTo6, roundTo4,
      Except.toOption, List.cons_ne_nil]
  · norm_num [roundTripAfterEstimate, compute_calibration, mkCalibState, hx, hy, hm,
      maxQ, minQ, max_def, min_def, List.filterMap_cons, median, sortQ, insertQ,
      pyRound, roundTo6, roundTo4, List.cons_ne_nil, logical_to_physical,
      physical_to_logical, load_state, l2pAxis, p2lAxis,
      Except.instMonad, Except.bind, Except.map, Except.pure]

/-! ## Claim C4: the stored scales and the median of the ratios -/

/-- The code's loop agrees with the spec's ratio collection (x axis). -/
theorem collectScalesX_eq_spec (points : List Point) :
    collectScalesX points = specRatiosX points := by
  induction points with
  | nil => rfl
  | cons p ps ih =>
    by_cases h : p.logical_x = 0 <;>
      simp [collectScalesX, specRatiosX, List.filterMap_cons, List.filter_cons, h] <;>
      simpa [collectScalesX, specRatiosX] using ih

/-- The code's loop agrees with the spec's ratio collection (y axis). -/
theorem collectScalesY_eq_spec (points : List Point) :
    collectScalesY points = specRatiosY points := by
  induction points with
  | nil => rfl
  | cons p ps ih =>
    by_cases h : p.logical_y = 0 <;>
      simp [collectScalesY, specRatiosY, List.filterMap_cons, List.filter_cons, h] <;>
      simpa [collectScalesY, specRatiosY] using ih

/-- C4 as amended.  The scales stored by a successful estimation are the
per-axis medians of the spec's ratio collections *rounded to 6 decimal
places* (`round(median, 6)` in the source), not the exact medians. -/
theorem scale_eq_round6_median (points : List Point) (now : ℚ) (s : CalibState)
    (h : compute_calibration points now = .ok s) :
    s.scale_x = some (roundTo6 (median (specRatiosX points))) ∧
    s.scale_y = some (roundTo6 (median (specRatiosY points))) := by
  obtain ⟨-, -, -, hmk⟩ := compute_calibration_ok points now s h
  subst hmk
  constructor <;>
    simp [mkCalibState, collectScalesX_eq_spec, collectScalesY_eq_spec]

/-- Witness for C4 (amended): on `thirdPoints` the stored scales equal the
rounded medians. -/
theorem scale_eq_round6_median_witness :
    (mkCalibState thirdPoints 0).scale_x =
      some (roundTo6 (median (specRatiosX thirdPoints))) ∧
    (mkCalibState thirdPoints 0).scale_y =
      some (roundTo6 (median (specRatiosY thirdPoints))) :=
  scale_eq_round6_median thirdPoints 0 (mkCalibState thirdPoints 0)
    (by norm_num [compute_calibration, collectScalesX, collectScalesY,
      thirdPoints, List.filterMap_cons, List.cons_ne_nil])

/-- C4 counterexample.  On `thirdPoints` every usable ratio is `1/3`, so the
median is `1/3`, but the stored `scale_x` is `0.333333 = 333333/1000000`:
the persisted scale is the median rounded to 6 decimal places, which here
differs from the exact median. -/
theorem scale_not_exact_median :
    (compute_calibration thirdPoints 0).toOption.map (fun s => s.scale_x) =
      some (some (333333/1000000)) ∧
    median (specRatiosX thirdPoints) = 1/3 ∧
    ((333333 : ℚ)/1000000) ≠ 1/3 := by
  have hx : collectScalesX [⟨1, 1, 3, 3, none⟩, ⟨1, 1, 3, 3, none⟩] = [1/3, 1/3] := by
    norm_num [collectScalesX, List.filterMap_cons]
  have hm : median [(1:ℚ)/3, 1/3] = 1/3 := by norm_num [median, sortQ, insertQ]
  refine ⟨?_, ?_, by norm_num⟩
  · have hy : collectScalesY [⟨1, 1, 3, 3, none⟩, ⟨1, 1, 3, 3, none⟩] = [1/3, 1/3] := by
      norm_num [collectScalesY, List.filterMap_cons]
    norm_num [compute_calibration, mkCalibState, thirdPoints, hx, hy, hm, maxQ, minQ,
      max_def, min_def, List.filterMap_cons, median, sortQ, insertQ, pyRound,
      roundTo6, roundTo4, Except.toOption, List.cons_ne_nil]
  · rw [← collectScalesX_eq_spec]
    norm_num [thirdPoints, hx, hm]

/-! ## Claim C9: positivity of the estimated scales -/

/-- Members of `insertQ a l` are `a` or members of `l`. -/
theorem mem_insertQ (a x : ℚ) (l : List ℚ) (h : x ∈ insertQ a l) : x = a ∨ x ∈ l := by
  induction l with
  | nil =>
    simp only [insertQ] at h
    exact Or.inl (List.mem_singleton.mp h)
  | cons b bs ih =>
    simp only [insertQ] at h
    split_ifs at h with hab
    · exact List.mem_cons.mp h
    · rcases List.mem_cons.mp h with h1 | h2
      · right; simp [h1]
      · rcases ih h2 with h3 | h4
        · left; exact h3
        · right; simp [h4]

/-- Members of the sorted list are members of the original list. -/
theorem mem_sortQ (x : ℚ) (l : List ℚ) (h : x ∈ sortQ l) : x ∈ l := by
  induction l with
  | nil =>
    simp only [sortQ] at h
    exact absurd h (List.not_mem_nil x)
  | cons a as ih =>
    rcases mem_insertQ a x (sortQ as) h with h1 | h2
    · simp [h1]
    · simp [ih h2]

/-- `insertQ` grows the length by one. -/
theorem length_insertQ (a : ℚ) (l : List ℚ) : (insertQ a l).length = l.length + 1 := by
  induction l with
  | nil => rfl
  | cons b bs ih =>
    simp only [insertQ]
    split_ifs
    · simp
    · simp [ih]

/-- Sorting preserves the length. -/
theorem length_sortQ (l : List ℚ) : (sortQ l).length = l.length := by
  induction l with
  | nil => rfl
  | cons a as ih => simp [sortQ, length_insertQ, ih]

/-- `getD` at an in-range index is a member. -/
theorem getD_mem (l : List ℚ) (i : ℕ) (h : i < l.length) : l.getD i 0 ∈ l := by
  induction l generalizing i with
  | nil => simp at h
  | cons a as ih =>
    cases i with
    | zero => simp
    | succ n =>
      simp only [List.getD_cons_succ]
      exact List.mem_cons_of_mem _ (ih n (by simpa using h))

/-- A lower bound satisfied by every sample is satisfied by the median. -/
theorem le_median (c : ℚ) (l : List ℚ) (hne : l ≠ []) (h : ∀ x ∈ l, c ≤ x) :
    c ≤ median l := by
  have hlen : 0 < (sortQ l).length := by
    rw [length_sortQ]
    exact List.length_pos.mpr hne
  have hmem : ∀ i, i < (sortQ l).length → c ≤ (sortQ l).getD i 0 :=
    fun i hi => h _ (mem_sortQ _ _ (getD_mem _ _ hi))
  simp only [median]
  split_ifs with hodd
  · exact hmem _ (by omega)
  · have hev : (sortQ l).length % 2 = 0 := by omega
    have h1 := hmem ((sortQ l).length / 2 - 1) (by omega)
    have h2 := hmem ((sortQ l).length / 2) (by omega)
    linarith

/-- `round(q, 6)` of a rational at least `10⁻⁶` is positive. -/
theorem roundTo6_pos (q : ℚ) (h : 1/1000000 ≤ q) : 0 < roundTo6 q := by
  have h1 : (1:ℚ) ≤ q * 1000000 := by linarith
  have h2 : |(pyRound (q * 1000000) : ℚ) - q * 1000000| ≤ 1/2 := pyRound_abs_le _
  have h3 : (1:ℚ)/2 ≤ (pyRound (q * 1000000) : ℚ) := by
    rw [abs_le] at h2
    linarith
  have h4 : (0:ℚ) < (pyRound (q * 1000000) : ℚ) := by linarith
  exact div_pos h4 (by norm_num)

/-- C9 as amended.  With at least 2 points whose physical and logical
coordinates are positive on both axes and whose per-point ratios are at
least `10⁻⁶` (`logical ≤ 10⁶ · physical`, so that rounding the median to 6
decimal places cannot collapse it to zero), estimation succeeds with
strictly positive stored scales.  (Nonzero logical coordinates alone do not
suffice: see the counterexample, where a zero physical coordinate makes the
stored scale 0, and note that a median ratio below `5·10⁻⁷` would round to
a stored scale of 0.) -/
theorem scale_pos_of_pos_coords (points : List Point) (now : ℚ)
    (hlen : 2 ≤ points.length)
    (hpos : ∀ p ∈ points, 0 < p.logical_x ∧ 0 < p.physical_x ∧
      p.logical_x ≤ 1000000 * p.physical_x ∧ 0 < p.logical_y ∧
      0 < p.physical_y ∧ p.logical_y ≤ 1000000 * p.physical_y) :
    ∃ s vx vy, compute_calibration points now = .ok s ∧
      s.scale_x = some vx ∧ s.scale_y = some vy ∧ 0 < vx ∧ 0 < vy := by
  have hne : points ≠ [] := by
    intro h
    rw [h] at hlen
    simp at hlen
  have hcx : collectScalesX points ≠ [] := by
    rw [Ne, collectScalesX_eq_nil_iff]
    intro hall
    cases points with
    | nil => exact hne rfl
    | cons p ps =>
      have h1 := (hpos p (List.mem_cons_self p ps)).1
      have h2 := hall p (List.mem_cons_self p ps)
      omega
  have hcy : collectScalesY points ≠ [] := by
    rw [Ne, collectScalesY_eq_nil_iff]
    intro hall
    cases points with
    | nil => exact hne rfl
    | cons p ps =>
      have h1 := (hpos p (List.mem_cons_self p ps)).2.2.2.1
      have h2 := hall p (List.mem_cons_self p ps)
      omega
  have hbx : ∀ x ∈ collectScalesX points, 1/1000000 ≤ x := by
    intro x hx
    rw [collectScalesX, List.mem_filterMap] at hx
    obtain ⟨p, hp, hpx⟩ := hx
    by_cases h0 : p.logical_x = 0
    · simp [h0] at hpx
    · simp only [h0, ne_eq, not_false_iff, if_true, Option.some_inj] at hpx
      obtain ⟨hl, hphys, hrat, -⟩ := hpos p hp
      rw [← hpx]
      have hl0 : (0:ℚ) < (p.logical_x : ℚ) := by exact_mod_cast hl
      rw [le_div_iff₀ hl0]
      have hrat' : (p.logical_x : ℚ) ≤ 1000000 * (p.physical_x : ℚ) := by
        exact_mod_cast hrat
      linarith
  have hby : ∀ x ∈ collectScalesY points, 1/1000000 ≤ x := by
    intro x hx
    rw [collectScalesY, List.mem_filterMap] at hx
    obtain ⟨p, hp, hpx⟩ := hx
    by_cases h0 : p.logical_y = 0
    · simp [h0] at hpx
    · simp only [h0, ne_eq, not_false_iff, if_true, Option.some_inj] at hpx
      obtain ⟨-, -, -, hl, hphys, hrat⟩ := hpos p hp
      rw [← hpx]
      have hl0 : (0:ℚ) < (p.logical_y : ℚ) := by exact_mod_cast hl
      rw [le_div_iff₀ hl0]
      have hrat' : (p.logical_y : ℚ) ≤ 1000000 * (p.physical_y : ℚ) := by
        exact_mod_cast hrat
      linarith
  have hmx : 1/1000000 ≤ median (collectScalesX points) :=
    le_median _ _ hcx hbx
  have hmy : 1/1000000 ≤ median (collectScalesY points) :=
    le_median _ _ hcy hby
  have hguard : ¬ (collectScalesX points = [] ∨ collectScalesY points = []) := by
    rw [not_or]
    exact ⟨hcx, hcy⟩
  refine ⟨mkCalibState points now, roundTo6 (median (collectScalesX points)),
    roundTo6 (median (collectScalesY points)), ?_, rfl, rfl, ?_, ?_⟩
  · simp [compute_calibration, show ¬ points.length < 2 by omega, hguard]
  · exact roundTo6_pos _ hmx
  · exact roundTo6_pos _ hmy

/-- Witness for C9 (amended): two points with positive coordinates at DPI
scale 1.25 on the second point give positive stored scales. -/
theorem scale_pos_of_pos_coords_witness :
    ∃ s vx vy, compute_calibration
        [⟨100, 100, 100, 100, none⟩, ⟨125, 125, 100, 100, none⟩] 0 = .ok s ∧
      s.scale_x = some vx ∧ s.scale_y = some vy ∧ 0 < vx ∧ 0 < vy :=
  scale_pos_of_pos_coords [⟨100, 100, 100, 100, none⟩, ⟨125, 125, 100, 100, none⟩] 0
    (by simp) (by decide)

/-- C9 counterexample.  Two copies of the point `physical (0,0) /
logical (5,5)` have nonzero logical coordinates on both axes and estimation
succeeds, yet the stored `scale_x` is `0`, not positive: nonzero logical
coordinates alone do not yield positive scales. -/
theorem scale_zero_with_nonzero_logical :
    ([⟨0, 0, 5, 5, none⟩, ⟨0, 0, 5, 5, none⟩] : List Point).all
        (fun p => decide (p.logical_x ≠ 0) && decide (p.logical_y ≠ 0)) = true ∧
    (compute_calibration [⟨0, 0, 5, 5, none⟩, ⟨0, 0, 5, 5, none⟩] 0).toOption.map
        (fun s => s.scale_x) = some (some 0) ∧
    ¬ (0:ℚ) < 0 := by
  have hx : collectScalesX [⟨0, 0, 5, 5, none⟩, ⟨0, 0, 5, 5, none⟩] = [0, 0] := by
    norm_num [collectScalesX, List.filterMap_cons]
  have hy : collectScalesY [⟨0, 0, 5, 5, none⟩, ⟨0, 0, 5, 5, none⟩] = [0, 0] := by
    norm_num [collectScalesY, List.filterMap_cons]
  have hm : median [(0:ℚ), 0] = 0 := by norm_num [median, sortQ, insertQ]
  refine ⟨by decide, ?_, by norm_num⟩
  norm_num [compute_calibration, mkCalibState, hx, hy, hm, maxQ, minQ, max_def, min_def,
    List.filterMap_cons, median, sortQ, insertQ, pyRound, roundTo6, roundTo4,
    Except.toOption, List.cons_ne_nil]

/-! ## Claim C10: reachable records keep the classifier total -/

/-- The classifier never raises as long as `calibrated_at` is present on
calibrated records (the only unguarded path is the `NameError` on the
stale branch with a `null` timestamp). -/
theorem check_calibration_total (s : CalibState) (now : ℚ)
    (h : s.calibrated = true → ∃ t, s.calibrated_at = some t) :
    ∃ r, check_calibration s now = .ok r := by
  by_cases hc : s.calibrated = false
  · exact ⟨⟨.missing, true, none, none⟩, by simp [check_calibration, hc]⟩
  · obtain ⟨t, ht⟩ := h (by simpa using hc)
    simp only [check_calibration, if_neg hc, ht]
    split_ifs <;> exact ⟨_, rfl⟩

/-- C10.  Every reachable record satisfies the invariant
`calibrated → calibrated_at ≠ null`, and on such records the status
classifier is total (returns a report instead of raising the `NameError`
latent in the stale branch). -/
theorem reachable_status_total (s : CalibState) (h : ReachableState s) :
    (s.calibrated = true → ∃ t, s.calibrated_at = some t) ∧
    ∀ now, ∃ r, check_calibration s now = .ok r := by
  have hinv : s.calibrated = true → ∃ t, s.calibrated_at = some t := by
    induction h with
    | initial => intro hc; simp [defaultState] at hc
    | estimated points now s' hok =>
      obtain ⟨-, -, -, hmk⟩ := compute_calibration_ok _ _ _ hok
      subst hmk
      exact fun _ => ⟨now, by simp [mkCalibState]⟩
    | marked s' success notes now hs ih =>
      intro hc
      simp only [mark_verified_update] at hc ⊢
      exact ih hc
  exact ⟨hinv, fun now => check_calibration_total s now hinv⟩

/-- Witness for C10: the default record is reachable and classified
without error. -/
theorem reachable_status_total_witness :
    ∃ r, check_calibration defaultState 0 = .ok r :=
  (reachable_status_total defaultState ReachableState.initial).2 0
